import Mathlib

/-!
# MATools::MAGPU — dispatch wrapper and CUDA device buffer

A shallow embedding of `MAGPUFunctor.hxx` and `MAGPUVectorCuda.hxx`, followed by the
properties of the dispatch wrapper (`MAGPUFunctor`) and of the device buffer manager
(`MADeviceMemory<T, GPU_TYPE::CUDA>`).

Conventions of the embedding.
* A pointer is an `Option Nat`: `none` is `nullptr`, `some a` is the address `a`, counted in
  elements of type `T`. Device global memory is a map from addresses to elements.
* A host array (`T* a_host` together with the elements behind it) is a `List T`.
* `unsigned int` values are natural numbers below `2^32`; conversions to `int`, `float`,
  `unsigned int` and `std::size_t` are written out where the source performs them.
* The CUDA runtime is part of the state: the device memory, the result `cudaMalloc` gives for
  a request, and the log of the requests made so far.
* Work issued to a stream is modelled by the state reached once the stream has executed it
  (operations of one stream run in issue order).
-/

namespace MATools
namespace MAGPU

/-! ## Backend tag and dispatch wrapper (MAGPUFunctor.hxx) -/

/-- Modelled from the spec: the backend tag `GPU_TYPE`, whose declaration is outside the
available sources; `SERIAL` (host-sequential) and `CUDA` (accelerator) are the two tags for
which `MAGPUFunctor` is specialised. -/
inductive GPU_TYPE where
  | SERIAL
  | CUDA
  deriving DecidableEq, Repr

/-- The members of `MAGPUFunctor<Func, GT>`. A kernel `Func` is given by what one call
`m_kernel(idx, args...)` does to the program state `σ`; `Args` is the forwarded pack. -/
structure MAGPUFunctor (σ Args : Type) (GT : GPU_TYPE) where
  m_kernel : Nat → Args → σ → σ
  m_name : String

/-- Constructor `MAGPUFunctor(Func& a_ker, std::string a_name)`: copies both arguments. -/
def MAGPUFunctor.ctor {σ Args : Type} {GT : GPU_TYPE} (a_ker : Nat → Args → σ → σ)
    (a_name : String) : MAGPUFunctor σ Args GT :=
  { m_kernel := a_ker, m_name := a_name }

/-- Constructor with the default argument `a_name = "default_name"`. -/
def MAGPUFunctor.ctor_default {σ Args : Type} {GT : GPU_TYPE} (a_ker : Nat → Args → σ → σ) :
    MAGPUFunctor σ Args GT :=
  MAGPUFunctor.ctor a_ker "default_name"

/-- The call `operator()(a_idx, a_args...)` of the SERIAL specialisation:
`m_kernel(a_idx, std::forward<Args>(a_args)...)`. -/
def MAGPUFunctor.call {σ Args : Type} (f : MAGPUFunctor σ Args GPU_TYPE.SERIAL)
    (a_idx : Nat) (a_args : Args) (s : σ) : σ :=
  f.m_kernel a_idx a_args s

/-- Member `get_name()`. -/
def MAGPUFunctor.get_name {σ Args : Type} {GT : GPU_TYPE} (f : MAGPUFunctor σ Args GT) :
    String :=
  f.m_name

/-- Member `get_gpu_type()`, one body per specialisation (lines 48-52 for SERIAL, lines 94-98
for CUDA); both bodies read `GPU_TYPE ret = GPU_TYPE::SERIAL; return ret;`. -/
def MAGPUFunctor.get_gpu_type {σ Args : Type} :
    {GT : GPU_TYPE} → MAGPUFunctor σ Args GT → GPU_TYPE
  | GPU_TYPE.SERIAL, _ => GPU_TYPE.SERIAL
  | GPU_TYPE.CUDA, _ => GPU_TYPE.SERIAL

/-- A kernel together with a record of its invocations: each call appends the index and the
arguments it received to the record and then acts as `k`. -/
def logged {σ Args : Type} (k : Nat → Args → σ → σ) :
    Nat → Args → σ × List (Nat × Args) → σ × List (Nat × Args) :=
  fun i a s => (k i a s.1, s.2 ++ [(i, a)])

/-- A host driver over the index range `[0, n)`: `for (i = 0; i < n; i++) f(i, args...)`. -/
def serial_for {σ Args : Type} (f : MAGPUFunctor σ Args GPU_TYPE.SERIAL) (n : Nat)
    (a_args : Args) (s : σ) : σ :=
  (List.range n).foldl (fun st i => f.call i a_args st) s

/-! ## Machine arithmetic used by the launch configuration -/

/-- Conversion `unsigned int → int` (two's complement, 32 bits). -/
def toInt32 (u : Nat) : Int :=
  if u % 4294967296 < 2147483648 then (u % 4294967296 : Nat)
  else ((u % 4294967296 : Nat) : Int) - 4294967296

/-- Conversion `int → unsigned int`, as for the `dim3` components of a launch. -/
def toUInt32 (i : Int) : Nat :=
  (i % 4294967296).toNat

/-- Conversion `int → std::size_t` (64 bits). -/
def toSizeT (i : Int) : Nat :=
  (i % 18446744073709551616).toNat

/-- Number of low bits a magnitude loses when stored in the 24-bit significand of a binary32
`float`; the first argument bounds the recursion. -/
def f32Shift : Nat → Nat → Nat
  | 0, _ => 0
  | fuel + 1, m => if m < 16777216 then 0 else f32Shift fuel (m / 2) + 1

/-- The binary32 value nearest to the natural number `m` (round to nearest, ties to even),
given as the integer it denotes: the conversion `(float)m` for `0 ≤ m < 2^64`. -/
def floatOfNat (m : Nat) : Nat :=
  let e := f32Shift 64 m
  let q := m / 2 ^ e
  let r := m % 2 ^ e
  if 2 ^ e < 2 * r ∨ (2 * r = 2 ^ e ∧ q % 2 = 1) then (q + 1) * 2 ^ e else q * 2 ^ e

/-- The expression `(int)ceil((float)size/block_size)` for `block_size = 256`: the division
of a binary32 value by 256 is exact, so the result is the ceiling of `(float)size / 256`. -/
def number_of_blocks (size : Int) : Int :=
  if 0 ≤ size then ((floatOfNat size.toNat + 255) / 256 : Nat)
  else -((floatOfNat (-size).toNat / 256 : Nat) : Int)

/-! ## CUDA runtime state and kernels (MAGPUVectorCuda.hxx) -/

/-- Result of a host-side member function: it returns to its caller in state `s`, or the
process ends in `std::abort()` with the state `s` reached at that point. -/
inductive Outcome (α : Type) where
  | ok (s : α)
  | abort (s : α)

/-- Sequencing of host-side calls: nothing runs after an abort. -/
def Outcome.andThen {α β : Type} (o : Outcome α) (f : α → Outcome β) (g : α → β) :
    Outcome β :=
  match o with
  | Outcome.ok s => f s
  | Outcome.abort s => Outcome.abort (g s)

/-- The two deleters installed in `m_device`: `cudaFree` by `gpu_allocator`, the empty lambda
by `gpu_aliasing`. -/
inductive Deleter where
  | cudaFree
  | noop
  deriving DecidableEq, Repr

/-- A `std::shared_ptr<T>`: the stored pointer (`get()`) and the deleter of its control block
(`none` for a pointer assigned from `nullptr`). -/
structure SharedPtr where
  ptr : Option Nat
  deleter : Option Deleter
  deriving DecidableEq, Repr

/-- The data members of `MADeviceMemory<T, GPU_TYPE::CUDA>`; stream `0` is the default
stream `cudaStream_t(0)`. -/
structure MADeviceMemory where
  m_device : SharedPtr
  m_device_size : Nat
  m_stream : Nat
  deriving DecidableEq, Repr

/-- The CUDA runtime as seen by the buffer: device memory, the pointer `cudaMalloc` stores
for a request of the given number of elements (`none`: the allocation fails and the pointer
argument keeps its value), and the requests made so far, most recent first. -/
structure Cuda (T : Type) where
  mem : Nat → T
  cudaMalloc : Nat → Option Nat
  mallocLog : List Nat

/-- Program state: the CUDA runtime and the buffer object the member functions act on. -/
structure State (T : Type) where
  cuda : Cuda T
  self : MADeviceMemory

/-- Default constructor: `m_device_size(0), m_device(nullptr), m_stream(cudaStream_t(0))`. -/
def MADeviceMemory.ctor : MADeviceMemory :=
  { m_device := { ptr := none, deleter := none }, m_device_size := 0, m_stream := 0 }

/-- Ownership mode of a buffer, read off the stored pointer and its deleter. -/
inductive Mode where
  | Empty
  | Owned
  | Aliased
  deriving DecidableEq, Repr

/-- Ownership mode: Empty when nothing is held, Owned under the `cudaFree` deleter, Aliased
under the empty deleter. -/
def MADeviceMemory.mode (b : MADeviceMemory) : Mode :=
  match b.m_device.deleter with
  | none => Mode.Empty
  | some Deleter.cudaFree => Mode.Owned
  | some Deleter.noop => Mode.Aliased

namespace CUDA_KERNEL

/-- The `unsigned int` index `blockIdx.x*blockDim.x+threadIdx.x` of a worker. -/
def globalIdx (blockIdx blockDim threadIdx : Nat) : Nat :=
  (blockIdx * blockDim + threadIdx) % 4294967296

/-- Kernel `init(T* const a_ptr, std::size_t a_size, const T a_val)`, one worker. A store
through a null pointer faults and writes nothing. -/
def init {T : Type} (a_ptr : Option Nat) (a_size : Nat) (a_val : T)
    (blockIdx blockDim threadIdx : Nat) (mem : Nat → T) : Nat → T :=
  let idx := globalIdx blockIdx blockDim threadIdx
  if idx < a_size then
    match a_ptr with
    | some p => Function.update mem (p + idx) a_val
    | none => mem
  else mem

/-- Kernel `init(T* const a_out, std::size_t a_size, T* a_in)`, one worker. An access
through a null pointer faults and writes nothing. -/
def init_copy {T : Type} (a_out : Option Nat) (a_size : Nat) (a_in : Option Nat)
    (blockIdx blockDim threadIdx : Nat) (mem : Nat → T) : Nat → T :=
  let idx := globalIdx blockIdx blockDim threadIdx
  if idx < a_size then
    match a_out, a_in with
    | some o, some i => Function.update mem (o + idx) (mem (i + idx))
    | _, _ => mem
  else mem

end CUDA_KERNEL

/-- A kernel launch `kernel<<<grid, block>>>`: the runtime rejects an empty grid or block
and one beyond the limits of the x dimension (2^31 - 1 blocks, 1024 threads), in which case
no worker runs; otherwise every worker `(blockIdx, threadIdx)` of the grid runs once. -/
def launch {T : Type} (grid block : Nat)
    (kernel : Nat → Nat → Nat → (Nat → T) → (Nat → T)) (mem : Nat → T) : Nat → T :=
  if grid = 0 ∨ 2147483647 < grid ∨ block = 0 ∨ 1024 < block then mem
  else (List.product (List.range grid) (List.range block)).foldl
    (fun m w => kernel w.1 block w.2 m) mem

/-- Device memory after storing the elements of a host list from address `p` on. -/
def memWrite {T : Type} : (Nat → T) → Nat → List T → (Nat → T)
  | mem, _, [] => mem
  | mem, p, x :: xs => memWrite (Function.update mem p x) (p + 1) xs

/-- The `count` elements of device memory from address `p` on. -/
def memRead {T : Type} (mem : Nat → T) (p count : Nat) : List T :=
  (List.range count).map (fun i => mem (p + i))

/-- The transfer `cudaMemcpy(dst, src, count*sizeof(T), cudaMemcpyHostToDevice)`; with a
null device pointer nothing is copied (the call returns an error code). -/
def cudaMemcpyHostToDevice {T : Type} (c : Cuda T) (dst : Option Nat) (src : List T)
    (count : Nat) : Cuda T :=
  match dst with
  | none => c
  | some p => { c with mem := memWrite c.mem p (src.take count) }

/-- The transfer `cudaMemcpy(dst, src, count*sizeof(T), cudaMemcpyDeviceToHost)` into the
host array `dst`; with a null device pointer nothing is copied. -/
def cudaMemcpyDeviceToHost {T : Type} (c : Cuda T) (dst : List T) (src : Option Nat)
    (count : Nat) : List T :=
  match src with
  | none => dst
  | some p => memRead c.mem p count ++ dst.drop count

/-- Member `get_cuda_stream()`. -/
def get_cuda_stream {T : Type} (s : State T) : Nat :=
  s.self.m_stream

/-- Member `get_device_data()`: `m_device.get()`. -/
def get_device_data {T : Type} (s : State T) : Option Nat :=
  s.self.m_device.ptr

/-- Member `get_device_size()`. -/
def get_device_size {T : Type} (s : State T) : Nat :=
  s.self.m_device_size

/-- Member `set_device_size(unsigned int a_size)`. -/
def set_device_size {T : Type} (s : State T) (a_size : Nat) : State T :=
  { s with self := { s.self with m_device_size := a_size } }

/-- Member `gpu_allocator(const std::size_t a_size)`: `cudaMalloc` into a pointer that
starts as `nullptr`, its return code unused; the pointer goes into `m_device` under the
`cudaFree` deleter and the size is stored (converted to `unsigned int`). -/
def gpu_allocator {T : Type} (s : State T) (a_size : Nat) : State T :=
  let ptr := s.cuda.cudaMalloc a_size
  let s1 : State T :=
    { cuda := { s.cuda with mallocLog := a_size :: s.cuda.mallocLog },
      self := { s.self with m_device := { ptr := ptr, deleter := some Deleter.cudaFree } } }
  set_device_size s1 (a_size % 4294967296)

/-- Member `gpu_aliasing(T* a_ptr, unsigned int a_size)`. -/
def gpu_aliasing {T : Type} (s : State T) (a_ptr : Option Nat) (a_size : Nat) : State T :=
  let s1 : State T :=
    { s with self := { s.self with m_device := { ptr := a_ptr, deleter := some Deleter.noop } } }
  set_device_size s1 a_size

/-- Member `gpu_resize(unsigned int a_size)`. -/
def gpu_resize {T : Type} (s : State T) (a_size : Nat) : Outcome (State T) :=
  if a_size = 0 then
    let s1 := set_device_size s 0
    Outcome.ok { s1 with self := { s1.self with m_device := { ptr := none, deleter := none } } }
  else if s.self.m_device_size > a_size then
    Outcome.ok (set_device_size s a_size)
  else
    if s.self.m_device.ptr = none then
      Outcome.ok (gpu_allocator s a_size)
    else
      Outcome.abort s

/-- Member `host_to_device(T* a_host, unsigned int a_host_size)`; `cudaMemcpyAsync` on a
non-default stream and `cudaMemcpy` on the default one perform the same transfer. -/
def host_to_device {T : Type} (s : State T) (a_host : List T) (a_host_size : Nat) :
    Outcome (State T) :=
  match gpu_resize s a_host_size with
  | Outcome.abort s1 => Outcome.abort s1
  | Outcome.ok s1 =>
    let size := get_device_size s1
    let device := get_device_data s1
    let stream := get_cuda_stream s1
    if stream ≠ 0 then
      Outcome.ok { s1 with cuda := cudaMemcpyHostToDevice s1.cuda device a_host size }
    else
      Outcome.ok { s1 with cuda := cudaMemcpyHostToDevice s1.cuda device a_host size }

/-- Member `device_to_host(T* a_host)`: returns the state and the host array after the
transfer of `get_device_size()` elements. -/
def device_to_host {T : Type} (s : State T) (a_host : List T) : Outcome (State T × List T) :=
  let device := get_device_data s
  let stream := get_cuda_stream s
  let size := get_device_size s
  if stream ≠ 0 then
    Outcome.ok (s, cudaMemcpyDeviceToHost s.cuda a_host device size)
  else
    Outcome.ok (s, cudaMemcpyDeviceToHost s.cuda a_host device size)

/-- Member `copy_to_vector_from_device()`: a vector resized to `get_device_size()`
value-initialised elements, then filled by `device_to_host`. -/
def copy_to_vector_from_device {T : Type} [Inhabited T] (s : State T) :
    Outcome (State T × List T) :=
  let size := get_device_size s
  let ret : List T := List.replicate size default
  device_to_host s ret

/-- Member `gpu_fill(const T& a_val)`: the size is read into an `int`, the grid is
`(int)ceil((float)size/block_size)` blocks of `block_size = 256` threads, and the kernel
receives the size converted to `std::size_t`. -/
def gpu_fill {T : Type} (s : State T) (a_val : T) : Outcome (State T) :=
  let raw_ptr := get_device_data s
  let size : Int := toInt32 (get_device_size s)
  let block_size : Int := 256
  let blocks : Int := number_of_blocks size
  Outcome.ok { s with cuda := { s.cuda with
    mem := launch (toUInt32 blocks) (toUInt32 block_size)
      (CUDA_KERNEL.init raw_ptr (toSizeT size) a_val) s.cuda.mem } }

/-- Member `gpu_sync()`: `cudaDeviceSynchronize()`; every state of this embedding is one in
which the issued work has completed, so it is the identity. -/
def gpu_sync {T : Type} (s : State T) : Outcome (State T) :=
  Outcome.ok s


/-! ## States used in the worked scenarios -/

/-- A freshly constructed buffer over the runtime `c`. -/
def fresh {T : Type} (c : Cuda T) : State T :=
  { cuda := c, self := MADeviceMemory.ctor }

/-- The Empty state of the buffer: no stored pointer and element count 0. -/
def State.isEmpty {T : Type} (s : State T) : Prop :=
  s.self.m_device.ptr = none ∧ s.self.m_device_size = 0

instance {T : Type} (s : State T) : Decidable s.isEmpty := by
  unfold State.isEmpty
  infer_instance

/-- A runtime with zeroed device memory whose allocations succeed at address 1000. -/
def cudaOk : Cuda Nat :=
  { mem := fun _ => 0, cudaMalloc := fun _ => some 1000, mallocLog := [] }

/-- A runtime with zeroed device memory whose allocations all fail. -/
def cudaOutOfMemory : Cuda Nat :=
  { mem := fun _ => 0, cudaMalloc := fun _ => none, mallocLog := [] }

/-- The Owned buffer of `n` elements at address 1000 that `gpu_resize(n)` leaves behind on
a fresh buffer over `cudaOk`. -/
def owned (n : Nat) : State Nat :=
  { cuda := { cudaOk with mallocLog := [n] },
    self := { m_device := { ptr := some 1000, deleter := some Deleter.cudaFree },
              m_device_size := n, m_stream := 0 } }

/-- The scenario "allocate `n`, copy in `A`, resize to `k`, copy out into `B`". -/
def allocate_copy_in_truncate {T : Type} (s : State T) (A : List T) (n k : Nat)
    (B : List T) : Outcome (State T × List T) :=
  (gpu_resize s n).andThen
    (fun s1 => (host_to_device s1 A n).andThen
      (fun s2 => (gpu_resize s2 k).andThen
        (fun s3 => device_to_host s3 B)
        (fun s3 => (s3, B)))
      (fun s2 => (s2, B)))
    (fun s1 => (s1, B))

/-! ## Dispatch wrapper -/

/-- C7. One call of the SERIAL wrapper is exactly one call of the stored kernel with the
index first and the arguments after it: on the instrumented kernel the record grows by the
single entry `(i, args)` and the state changes as the kernel dictates. Driving the wrapper
over `0, 1, ..., n-1` therefore records one invocation per index, in increasing order. -/
theorem serial_call_invokes_kernel_once {σ Args : Type} (k : Nat → Args → σ → σ)
    (name : String) (i : Nat) (args : Args) (s : σ) (log : List (Nat × Args)) :
    (∀ f : MAGPUFunctor σ Args GPU_TYPE.SERIAL, f.call i args s = f.m_kernel i args s) ∧
    (MAGPUFunctor.ctor (logged k) name).call i args (s, log)
      = (k i args s, log ++ [(i, args)]) ∧
    ∀ n : Nat, serial_for (MAGPUFunctor.ctor (logged k) name) n args (s, log)
      = ((List.range n).foldl (fun st j => k j args st) s,
         log ++ (List.range n).map (fun j => (j, args))) := by
  refine ⟨fun f => rfl, rfl, ?_⟩
  intro n
  induction n with
  | zero => simp [serial_for]
  | succ m ih =>
    unfold serial_for at ih ⊢
    rw [List.range_succ, List.foldl_append, ih]
    simp [MAGPUFunctor.call, MAGPUFunctor.ctor, logged, List.foldl_append]

/-- C6. The CUDA specialisation of `get_gpu_type()` returns `SERIAL`, not the tag `CUDA` it
was instantiated with; the SERIAL specialisation returns `SERIAL`. -/
theorem get_gpu_type_of_cuda_specialisation {σ Args : Type}
    (f : MAGPUFunctor σ Args GPU_TYPE.CUDA) (g : MAGPUFunctor σ Args GPU_TYPE.SERIAL) :
    f.get_gpu_type = GPU_TYPE.SERIAL ∧ f.get_gpu_type ≠ GPU_TYPE.CUDA ∧
    g.get_gpu_type = GPU_TYPE.SERIAL := by
  refine ⟨rfl, ?_, rfl⟩
  simp [MAGPUFunctor.get_gpu_type]

/-! ## Resizing -/

/-- Shrinking to a strictly smaller non-zero size returns normally, stores the new size and
touches neither the stored pointer, the device memory nor the allocator. -/
theorem gpu_resize_shrink {T : Type} (s : State T) (k : Nat) (hk : 0 < k)
    (hlt : k < get_device_size s) :
    gpu_resize s k = Outcome.ok (set_device_size s k) := by
  have h0 : k ≠ 0 := by omega
  have h1 : s.self.m_device_size > k := hlt
  simp [gpu_resize, h0, h1]

/-- Resizing to zero returns normally and leaves the buffer Empty. -/
theorem gpu_resize_zero {T : Type} (s : State T) :
    ∃ s1, gpu_resize s 0 = Outcome.ok s1 ∧ s1.isEmpty ∧ s1.cuda = s.cuda := by
  refine ⟨_, rfl, ?_, ?_⟩
  · exact ⟨rfl, rfl⟩
  · rfl

/-- Resizing a buffer that holds a non-null pointer to its current non-zero size reaches
the abort branch. -/
theorem gpu_resize_same_size {T : Type} (s : State T) (p : Nat)
    (hp : get_device_data s = some p) (hm : 0 < get_device_size s) :
    gpu_resize s (get_device_size s) = Outcome.abort s := by
  have h0 : s.self.m_device_size ≠ 0 := by
    simp only [get_device_size] at hm; omega
  have hp1 : s.self.m_device.ptr = some p := hp
  simp [gpu_resize, get_device_size, h0, hp1]

/-- C2, at the failing input. The Owned buffer of size 4 obtained by `gpu_resize(4)` on a
fresh buffer, and the Aliased buffer installed by `gpu_aliasing(ptr, 4)`, both abort on
`gpu_resize(4)`, a request with `k = m`. -/
theorem gpu_resize_to_current_size_aborts :
    gpu_resize (fresh cudaOk) 4 = Outcome.ok (owned 4) ∧
    (owned 4).self.mode = Mode.Owned ∧ get_device_size (owned 4) = 4 ∧
    gpu_resize (owned 4) 4 = Outcome.abort (owned 4) ∧
    (gpu_aliasing (fresh cudaOk) (some 1000) 4).self.mode = Mode.Aliased ∧
    gpu_resize (gpu_aliasing (fresh cudaOk) (some 1000) 4) 4
      = Outcome.abort (gpu_aliasing (fresh cudaOk) (some 1000) 4) := by
  refine ⟨rfl, rfl, rfl, rfl, rfl, rfl⟩

/-- C3. Enlarging is fatal. For an Owned buffer whose allocation has been made (non-null
stored pointer, size `m > 0`) and for the buffer left by `gpu_aliasing(ptr, n)` on a
non-null `ptr`, `gpu_resize(k)` with `k` above the current size ends in the abort branch in
the very state it was called in: no request reaches the allocator and the stored pointer
and size are unchanged. -/
theorem gpu_resize_enlarge_aborts {T : Type} (s : State T) (p k : Nat) :
    (s.self.mode = Mode.Owned → get_device_data s = some p → 0 < get_device_size s →
      get_device_size s < k → gpu_resize s k = Outcome.abort s) ∧
    (∀ n : Nat, n < k →
      gpu_resize (gpu_aliasing s (some p) n) k = Outcome.abort (gpu_aliasing s (some p) n)) := by
  constructor
  · intro _ hp _ hk
    have h0 : k ≠ 0 := by omega
    have h1 : ¬ s.self.m_device_size > k := by
      simp only [get_device_size] at hk; omega
    have hp1 : s.self.m_device.ptr = some p := hp
    simp [gpu_resize, h0, h1, hp1]
  · intro n hn
    have h0 : k ≠ 0 := by omega
    have h1 : ¬ n > k := by omega
    simp [gpu_resize, gpu_aliasing, set_device_size, h0, h1]

/-- C3, worked: allocating size 4 and then resizing to 8 aborts, and so does resizing an
alias of 4 elements to 8. -/
theorem gpu_resize_enlarge_aborts_witness :
    gpu_resize (fresh cudaOk) 4 = Outcome.ok (owned 4) ∧
    gpu_resize (owned 4) 8 = Outcome.abort (owned 4) ∧
    gpu_resize (gpu_aliasing (fresh cudaOk) (some 1000) 4) 8
      = Outcome.abort (gpu_aliasing (fresh cudaOk) (some 1000) 4) :=
  ⟨rfl,
   (gpu_resize_enlarge_aborts (owned 4) 1000 8).1 rfl rfl (by decide) (by decide),
   (gpu_resize_enlarge_aborts (fresh cudaOk) 1000 8).2 4 (by decide)⟩

/-- Copying `n > 0` elements into a buffer just allocated with `n` elements aborts in
`host_to_device`, whatever the host array and the later truncation. -/
theorem allocate_copy_in_aborts {T : Type} (s : State T) (A B : List T) (n k p : Nat)
    (he : s.isEmpty) (hn : 0 < n) (hn32 : n < 4294967296)
    (hm : s.cuda.cudaMalloc n = some p) :
    allocate_copy_in_truncate s A n k B = Outcome.abort (gpu_allocator s n, B) := by
  obtain ⟨hp, hs⟩ := he
  have h0 : n ≠ 0 := by omega
  have hmod : n % 4294967296 = n := Nat.mod_eq_of_lt hn32
  have hres : gpu_resize s n = Outcome.ok (gpu_allocator s n) := by
    simp [gpu_resize, h0, hp, hs]
  have hsz : get_device_size (gpu_allocator s n) = n := by
    simp [get_device_size, gpu_allocator, set_device_size, hmod]
  have hptr : get_device_data (gpu_allocator s n) = some p := by
    simp [get_device_data, gpu_allocator, set_device_size, hm]
  have habort : gpu_resize (gpu_allocator s n) n = Outcome.abort (gpu_allocator s n) := by
    have := gpu_resize_same_size (gpu_allocator s n) p hptr (by omega)
    rwa [hsz] at this
  simp only [allocate_copy_in_truncate, hres, Outcome.andThen, host_to_device, habort]

/-- C4, at the failing input. After `gpu_resize(5)` the call `host_to_device(A, 5)` resizes
to the current size and aborts, so the scenario never reaches the truncation nor the copy
out: the destination is untouched. -/
theorem allocate_copy_in_truncate_aborts :
    allocate_copy_in_truncate (fresh cudaOk) [1, 2, 3, 4, 5] 5 3 [0, 0, 0]
      = Outcome.abort (owned 5, [0, 0, 0]) ∧
    gpu_resize (fresh cudaOk) 5 = Outcome.ok (owned 5) ∧
    host_to_device (owned 5) [1, 2, 3, 4, 5] 5 = Outcome.abort (owned 5) := by
  refine ⟨rfl, rfl, rfl⟩

/-! ## Failure paths -/

/-- C8, as stated, fails: with an allocator that cannot satisfy the request, `gpu_resize(4)`
and `host_to_device(A, 4)` on a fresh buffer return normally, and the buffer then reports
size 4 over a null device pointer. -/
theorem allocation_failure_returns_normally :
    ∃ s : State Nat, gpu_resize (fresh cudaOutOfMemory) 4 = Outcome.ok s ∧
      host_to_device (fresh cudaOutOfMemory) [1, 2, 3, 4] 4 = Outcome.ok s ∧
      get_device_size s = 4 ∧ get_device_data s = none :=
  ⟨_, rfl, rfl, rfl, rfl⟩

/-- C8, amended. When `cudaMalloc` fails for a request of `n > 0` elements on an Empty
buffer, `gpu_resize(n)` and `host_to_device(A, n)` return normally in the state left by
`gpu_allocator(n)`: the request is logged, the stored pointer is null, the reported size is
`n`, and device memory is unchanged. -/
theorem gpu_resize_on_allocation_failure {T : Type} (s : State T) (A : List T) (n : Nat)
    (he : s.isEmpty) (hn : 0 < n) (hn32 : n < 4294967296)
    (hfail : s.cuda.cudaMalloc n = none) :
    gpu_resize s n = Outcome.ok (gpu_allocator s n) ∧
    host_to_device s A n = Outcome.ok (gpu_allocator s n) ∧
    get_device_size (gpu_allocator s n) = n ∧
    get_device_data (gpu_allocator s n) = none ∧
    (gpu_allocator s n).cuda.mem = s.cuda.mem ∧
    (gpu_allocator s n).cuda.mallocLog = n :: s.cuda.mallocLog := by
  obtain ⟨hp, hs⟩ := he
  have h0 : n ≠ 0 := by omega
  have hmod : n % 4294967296 = n := Nat.mod_eq_of_lt hn32
  have hres : gpu_resize s n = Outcome.ok (gpu_allocator s n) := by
    simp [gpu_resize, h0, hp, hs]
  have hptr : get_device_data (gpu_allocator s n) = none := by
    simp [get_device_data, gpu_allocator, set_device_size, hfail]
  refine ⟨hres, ?_, ?_, hptr, ?_, ?_⟩
  · simp only [host_to_device, hres, hptr, cudaMemcpyHostToDevice, ite_self]
  · simp [get_device_size, gpu_allocator, set_device_size, hmod]
  · simp [gpu_allocator, set_device_size]
  · simp [gpu_allocator, set_device_size]

/-- C8, amended, worked at `n = 4`. -/
theorem gpu_resize_on_allocation_failure_witness :
    gpu_resize (fresh cudaOutOfMemory) 4 = Outcome.ok (gpu_allocator (fresh cudaOutOfMemory) 4) ∧
    host_to_device (fresh cudaOutOfMemory) [1, 2, 3, 4] 4
      = Outcome.ok (gpu_allocator (fresh cudaOutOfMemory) 4) ∧
    get_device_size (gpu_allocator (fresh cudaOutOfMemory) 4) = 4 ∧
    get_device_data (gpu_allocator (fresh cudaOutOfMemory) 4) = none ∧
    (gpu_allocator (fresh cudaOutOfMemory) 4).cuda.mem = cudaOutOfMemory.mem ∧
    (gpu_allocator (fresh cudaOutOfMemory) 4).cuda.mallocLog = 4 :: cudaOutOfMemory.mallocLog :=
  gpu_resize_on_allocation_failure (fresh cudaOutOfMemory) [1, 2, 3, 4] 4
    ⟨rfl, rfl⟩ (by decide) (by decide) rfl

/-- C9, as stated, fails: on a fresh (Empty) buffer `gpu_fill(7)` and `device_to_host(dst)`
both return normally. -/
theorem empty_buffer_operations_return_normally :
    gpu_fill (fresh cudaOk) 7 = Outcome.ok (fresh cudaOk) ∧
    device_to_host (fresh cudaOk) [0] = Outcome.ok (fresh cudaOk, [0]) :=
  ⟨rfl, rfl⟩

/-- C9, amended. On an Empty buffer `gpu_fill(v)` and `device_to_host(dst)` return normally
without any effect: the state (buffer and device memory) and the destination are unchanged,
and `copy_to_vector_from_device()` returns the empty vector. -/
theorem empty_buffer_operations_are_noops {T : Type} [Inhabited T] (s : State T) (v : T)
    (dst : List T) (he : s.isEmpty) :
    gpu_fill s v = Outcome.ok s ∧ device_to_host s dst = Outcome.ok (s, dst) ∧
    copy_to_vector_from_device s = Outcome.ok (s, []) := by
  obtain ⟨hp, hs⟩ := he
  have hblocks : toUInt32 (number_of_blocks (toInt32 0)) = 0 := by decide
  refine ⟨?_, ?_, ?_⟩
  · simp only [gpu_fill, get_device_size, hs, hblocks, launch, true_or, if_true]
  · simp [device_to_host, get_device_data, hp, cudaMemcpyDeviceToHost]
  · simp [copy_to_vector_from_device, device_to_host, get_device_data, get_device_size, hp, hs,
      cudaMemcpyDeviceToHost]

/-- C9, amended, worked on a fresh buffer. -/
theorem empty_buffer_operations_are_noops_witness :
    gpu_fill (fresh cudaOk) 7 = Outcome.ok (fresh cudaOk) ∧
    device_to_host (fresh cudaOk) [0, 0] = Outcome.ok (fresh cudaOk, [0, 0]) ∧
    copy_to_vector_from_device (fresh cudaOk) = Outcome.ok (fresh cudaOk, []) :=
  empty_buffer_operations_are_noops (fresh cudaOk) 7 [0, 0] ⟨rfl, rfl⟩

/-! ## Transfers -/

/-- Storing a list from address `p` on leaves the addresses below `p` alone. -/
theorem memWrite_below {T : Type} (xs : List T) (mem : Nat → T) (p a : Nat) (h : a < p) :
    memWrite mem p xs a = mem a := by
  induction xs generalizing mem p with
  | nil => rfl
  | cons x xs ih =>
    rw [memWrite, ih _ _ (by omega), Function.update_noteq (by omega)]

/-- Storing a list from address `p` on puts its `i`-th element at address `p + i`. -/
theorem memWrite_at {T : Type} (xs : List T) (mem : Nat → T) (p i : Nat) (h : i < xs.length) :
    memWrite mem p xs (p + i) = xs[i] := by
  induction xs generalizing mem p i with
  | nil => simp at h
  | cons x xs ih =>
    cases i with
    | zero =>
      rw [memWrite, memWrite_below _ _ _ _ (by omega)]
      simp
    | succ j =>
      have hj : j < xs.length := by simpa using h
      have hadd : p + (j + 1) = (p + 1) + j := by omega
      rw [memWrite, hadd, ih _ _ _ hj]
      rfl

/-- Reading back what was stored returns the list. -/
theorem memRead_memWrite {T : Type} (xs : List T) (mem : Nat → T) (p : Nat) :
    memRead (memWrite mem p xs) p xs.length = xs := by
  apply List.ext_getElem
  · simp [memRead]
  · intro i h1 h2
    simp [memRead, memWrite_at xs mem p i h2]

/-- C1. Round trip. On a freshly constructed buffer (default stream) over any runtime whose
allocation of `n = |A|` elements succeeds (none is requested when `n = 0`),
`host_to_device(A, n)` returns normally, `get_device_size()` is then `n`, and both
`device_to_host(B)` into a destination of `n` elements and `copy_to_vector_from_device()`
yield exactly `A`. -/
theorem host_to_device_device_to_host_roundtrip {T : Type} [Inhabited T] (c : Cuda T)
    (A B : List T) (p : Nat) (hn : A.length < 4294967296) (hB : B.length = A.length)
    (hm : A ≠ [] → c.cudaMalloc A.length = some p) :
    ∃ s1 : State T, host_to_device (fresh c) A A.length = Outcome.ok s1 ∧
      get_device_size s1 = A.length ∧
      device_to_host s1 B = Outcome.ok (s1, A) ∧
      copy_to_vector_from_device s1 = Outcome.ok (s1, A) := by
  by_cases hA : A = []
  · subst hA
    have hB0 : B = [] := List.length_eq_zero.mp hB
    subst hB0
    exact ⟨_, rfl, rfl, rfl, rfl⟩
  · have hlen : A.length ≠ 0 := fun h => hA (List.length_eq_zero.mp h)
    have hmod : A.length % 4294967296 = A.length := Nat.mod_eq_of_lt hn
    have hres : gpu_resize (fresh c) A.length = Outcome.ok (gpu_allocator (fresh c) A.length) := by
      simp [gpu_resize, hlen, fresh, MADeviceMemory.ctor]
    have hsz : get_device_size (gpu_allocator (fresh c) A.length) = A.length := by
      simp [get_device_size, gpu_allocator, set_device_size, hmod]
    have hptr : get_device_data (gpu_allocator (fresh c) A.length) = some p := by
      simp [get_device_data, gpu_allocator, set_device_size, fresh, hm hA]
    have hcopy : host_to_device (fresh c) A A.length = Outcome.ok
        { gpu_allocator (fresh c) A.length with
          cuda := { (gpu_allocator (fresh c) A.length).cuda with
            mem := memWrite (gpu_allocator (fresh c) A.length).cuda.mem p A } } := by
      simp only [host_to_device, hres, hsz, hptr, cudaMemcpyHostToDevice, ite_self,
        List.take_length]
    have hdrop : B.drop A.length = [] := by
      rw [← hB]; exact List.drop_length B
    refine ⟨_, hcopy, hsz, ?_, ?_⟩
    · have hsz1 : (gpu_allocator (fresh c) A.length).self.m_device_size = A.length := hsz
      have hptr1 : (gpu_allocator (fresh c) A.length).self.m_device.ptr = some p := hptr
      simp [device_to_host, get_device_data, get_device_size, cudaMemcpyDeviceToHost,
        hsz1, hptr1, hdrop, memRead_memWrite]
    · have hsz1 : (gpu_allocator (fresh c) A.length).self.m_device_size = A.length := hsz
      have hptr1 : (gpu_allocator (fresh c) A.length).self.m_device.ptr = some p := hptr
      simp [copy_to_vector_from_device, device_to_host, get_device_data, get_device_size,
        cudaMemcpyDeviceToHost, hsz1, hptr1, memRead_memWrite]

/-- C1, worked: `A = [1, 2, 3, 4, 5]` over a runtime allocating at address 1000. -/
theorem host_to_device_device_to_host_roundtrip_witness :
    ∃ s1 : State Nat, host_to_device (fresh cudaOk) [1, 2, 3, 4, 5] 5 = Outcome.ok s1 ∧
      get_device_size s1 = 5 ∧
      device_to_host s1 [0, 0, 0, 0, 0] = Outcome.ok (s1, [1, 2, 3, 4, 5]) ∧
      copy_to_vector_from_device s1 = Outcome.ok (s1, [1, 2, 3, 4, 5]) :=
  host_to_device_device_to_host_roundtrip cudaOk [1, 2, 3, 4, 5] [0, 0, 0, 0, 0] 1000
    (by decide) rfl (fun _ => rfl)

/-! ## Kernels and launches -/

/-- A fold of worker steps that all leave address `a` alone leaves it alone. -/
theorem foldl_preserves {T : Type} (step : (Nat → T) → Nat × Nat → (Nat → T)) (a : Nat)
    (l : List (Nat × Nat)) (h : ∀ w ∈ l, ∀ m, step m w a = m a) (mem : Nat → T) :
    l.foldl step mem a = mem a := by
  induction l generalizing mem with
  | nil => rfl
  | cons x xs ih =>
    rw [List.foldl_cons, ih (fun w hw => h w (List.mem_cons_of_mem _ hw)),
      h x (List.mem_cons_self _ _)]

/-- A launch whose workers all leave address `a` alone leaves it alone. -/
theorem launch_preserves {T : Type} (grid block : Nat)
    (kernel : Nat → Nat → Nat → (Nat → T) → (Nat → T)) (a : Nat)
    (h : ∀ b, b < grid → ∀ t, t < block → ∀ m, kernel b block t m a = m a)
    (mem : Nat → T) : launch grid block kernel mem a = mem a := by
  unfold launch
  split
  · rfl
  · apply foldl_preserves
    intro w hw m
    obtain ⟨b, t⟩ := w
    rw [List.pair_mem_product, List.mem_range, List.mem_range] at hw
    exact h b hw.1 t hw.2 m

/-- One worker of the fill kernel either stores `a_val` at an address or leaves it alone. -/
theorem init_apply {T : Type} (a_ptr : Option Nat) (a_size : Nat) (a_val : T)
    (b d t : Nat) (mem : Nat → T) (a : Nat) :
    CUDA_KERNEL.init a_ptr a_size a_val b d t mem a = a_val ∨
    CUDA_KERNEL.init a_ptr a_size a_val b d t mem a = mem a := by
  unfold CUDA_KERNEL.init
  split
  · cases a_ptr with
    | none => exact Or.inr rfl
    | some p =>
      by_cases ha : a = p + CUDA_KERNEL.globalIdx b d t
      · left; subst ha; simp
      · right; simp [Function.update_noteq ha]
  · exact Or.inr rfl

/-- Once an address holds `a_val`, further workers of the fill kernel keep it so. -/
theorem foldl_init_keeps {T : Type} (a_ptr : Option Nat) (a_size d : Nat) (a_val : T)
    (a : Nat) (l : List (Nat × Nat)) (mem : Nat → T) (h : mem a = a_val) :
    l.foldl (fun m w => CUDA_KERNEL.init a_ptr a_size a_val w.1 d w.2 m) mem a = a_val := by
  induction l generalizing mem with
  | nil => exact h
  | cons x xs ih =>
    rw [List.foldl_cons]
    apply ih
    rcases init_apply a_ptr a_size a_val x.1 d x.2 mem a with h1 | h1
    · exact h1
    · rw [h1, h]

/-- If the worker with in-range index `i` is among those run, address `p + i` ends up
holding `a_val`. -/
theorem foldl_init_written {T : Type} (p a_size d : Nat) (a_val : T) (w0 : Nat × Nat)
    (hw0 : CUDA_KERNEL.globalIdx w0.1 d w0.2 < a_size) (l : List (Nat × Nat)) (hmem : w0 ∈ l)
    (mem : Nat → T) :
    l.foldl (fun m w => CUDA_KERNEL.init (some p) a_size a_val w.1 d w.2 m) mem
      (p + CUDA_KERNEL.globalIdx w0.1 d w0.2) = a_val := by
  induction l generalizing mem with
  | nil => simp at hmem
  | cons x xs ih =>
    rw [List.foldl_cons]
    rcases List.mem_cons.mp hmem with hx | hx
    · subst hx
      apply foldl_init_keeps
      simp [CUDA_KERNEL.init, hw0]
    · exact ih hx _

/-- Within the first `2^24` blocks of 256 threads the 32-bit index does not wrap. -/
theorem globalIdx_eq (b t : Nat) (hb : b < 16777216) (ht : t < 256) :
    CUDA_KERNEL.globalIdx b 256 t = b * 256 + t := by
  unfold CUDA_KERNEL.globalIdx
  apply Nat.mod_eq_of_lt
  omega

/-- A valid launch of the fill kernel over at most `2^24` blocks of 256 threads stores
`a_val` at every index below both the size and the number of workers. -/
theorem launch_init_written {T : Type} (grid p a_size : Nat) (a_val : T) (mem : Nat → T)
    (i : Nat) (hg : grid ≤ 16777216) (hi : i < a_size) (hig : i < grid * 256) :
    launch grid 256 (CUDA_KERNEL.init (some p) a_size a_val) mem (p + i) = a_val := by
  have hb : i / 256 < grid := by
    rw [Nat.div_lt_iff_lt_mul (by decide)]; exact hig
  have ht : i % 256 < 256 := Nat.mod_lt _ (by decide)
  have hidx : CUDA_KERNEL.globalIdx (i / 256) 256 (i % 256) = i := by
    rw [globalIdx_eq _ _ (by omega) ht]
    have := Nat.div_add_mod i 256
    omega
  have hcfg : ¬ (grid = 0 ∨ 2147483647 < grid ∨ 256 = 0 ∨ 1024 < 256) := by omega
  unfold launch
  rw [if_neg hcfg]
  have hmem : (i / 256, i % 256) ∈ List.product (List.range grid) (List.range 256) := by
    rw [List.pair_mem_product, List.mem_range, List.mem_range]
    exact ⟨hb, ht⟩
  have key := foldl_init_written p a_size 256 a_val (i / 256, i % 256)
    (by simpa [hidx] using hi) _ hmem mem
  simpa [hidx] using key

/-- Beyond `2^24` blocks the `unsigned int` index wraps: the worker of block `2^24`, thread
0, computes index 0 and stores into element 0. -/
theorem globalIdx_wraps :
    CUDA_KERNEL.globalIdx 16777216 256 0 = 0 ∧
    CUDA_KERNEL.init (some 1000) 1 7 16777216 256 0 cudaOk.mem
      = Function.update cudaOk.mem 1000 7 := by
  constructor
  · decide
  · have h : CUDA_KERNEL.globalIdx 16777216 256 0 = 0 := by decide
    simp [CUDA_KERNEL.init, h]

/-- C10. Bound check of the two `init` kernels, for a block of 256 threads. For every size,
block index `b` below `2^24` (every grid `gpu_fill` can launch) and thread `t`, the worker's
index is `idx = b*256 + t`: when `idx < size` it stores into element `idx` of the
destination and nowhere else (`a_val` in the fill variant, `a_in[idx]` in the copy
variant), and when `idx ≥ size` it writes nothing, whatever the pointers. For every block
index whatsoever the same holds of the `unsigned int` index the kernel computes. Hence a
launch over any number of blocks leaves every destination element of index `≥ size`
unchanged. -/
theorem init_bound_check {T : Type} (size b t : Nat) (ht : t < 256) (p q : Nat) (v : T)
    (mem : Nat → T) :
    (b < 16777216 →
      (b * 256 + t < size →
        CUDA_KERNEL.init (some p) size v b 256 t mem
          = Function.update mem (p + (b * 256 + t)) v ∧
        CUDA_KERNEL.init_copy (some p) size (some q) b 256 t mem
          = Function.update mem (p + (b * 256 + t)) (mem (q + (b * 256 + t)))) ∧
      (size ≤ b * 256 + t → ∀ dst src : Option Nat,
        CUDA_KERNEL.init dst size v b 256 t mem = mem ∧
        CUDA_KERNEL.init_copy dst size src b 256 t mem = mem)) ∧
    (CUDA_KERNEL.globalIdx b 256 t < size →
      CUDA_KERNEL.init (some p) size v b 256 t mem
        = Function.update mem (p + CUDA_KERNEL.globalIdx b 256 t) v ∧
      CUDA_KERNEL.init_copy (some p) size (some q) b 256 t mem
        = Function.update mem (p + CUDA_KERNEL.globalIdx b 256 t)
            (mem (q + CUDA_KERNEL.globalIdx b 256 t))) ∧
    (size ≤ CUDA_KERNEL.globalIdx b 256 t → ∀ dst src : Option Nat,
      CUDA_KERNEL.init dst size v b 256 t mem = mem ∧
      CUDA_KERNEL.init_copy dst size src b 256 t mem = mem) ∧
    (∀ grid j : Nat, size ≤ j →
      launch grid 256 (CUDA_KERNEL.init (some p) size v) mem (p + j) = mem (p + j) ∧
      launch grid 256 (CUDA_KERNEL.init_copy (some p) size (some q)) mem (p + j)
        = mem (p + j)) := by
  have hw : CUDA_KERNEL.globalIdx b 256 t < size →
      CUDA_KERNEL.init (some p) size v b 256 t mem
        = Function.update mem (p + CUDA_KERNEL.globalIdx b 256 t) v ∧
      CUDA_KERNEL.init_copy (some p) size (some q) b 256 t mem
        = Function.update mem (p + CUDA_KERNEL.globalIdx b 256 t)
            (mem (q + CUDA_KERNEL.globalIdx b 256 t)) := by
    intro h
    simp [CUDA_KERNEL.init, CUDA_KERNEL.init_copy, h]
  have hs : size ≤ CUDA_KERNEL.globalIdx b 256 t → ∀ dst src : Option Nat,
      CUDA_KERNEL.init dst size v b 256 t mem = mem ∧
      CUDA_KERNEL.init_copy dst size src b 256 t mem = mem := by
    intro h dst src
    have h1 : ¬ CUDA_KERNEL.globalIdx b 256 t < size := by omega
    simp [CUDA_KERNEL.init, CUDA_KERNEL.init_copy, h1]
  refine ⟨?_, hw, hs, ?_⟩
  · intro hb
    have hidx := globalIdx_eq b t hb ht
    rw [hidx] at hw hs
    exact ⟨hw, hs⟩
  · intro grid j hj
    constructor
    · apply launch_preserves
      intro b1 _ t1 _ m
      by_cases h : CUDA_KERNEL.globalIdx b1 256 t1 < size
      · have hne : p + j ≠ p + CUDA_KERNEL.globalIdx b1 256 t1 := by omega
        simp [CUDA_KERNEL.init, h, Function.update_noteq hne]
      · simp [CUDA_KERNEL.init, h]
    · apply launch_preserves
      intro b1 _ t1 _ m
      by_cases h : CUDA_KERNEL.globalIdx b1 256 t1 < size
      · have hne : p + j ≠ p + CUDA_KERNEL.globalIdx b1 256 t1 := by omega
        simp [CUDA_KERNEL.init_copy, h, Function.update_noteq hne]
      · simp [CUDA_KERNEL.init_copy, h]

/-- C10, worked on a destination of size 10 at address 1000: in block 0, thread 3 has index
3 and stores into element 3 only, thread 12 writes nothing, and a launch of one block
leaves element 10 as it was. -/
theorem init_bound_check_witness :
    (CUDA_KERNEL.init (some 1000) 10 7 0 256 3 cudaOk.mem
        = Function.update cudaOk.mem (1000 + (0 * 256 + 3)) 7 ∧
      CUDA_KERNEL.init_copy (some 1000) 10 (some 2000) 0 256 3 cudaOk.mem
        = Function.update cudaOk.mem (1000 + (0 * 256 + 3)) (cudaOk.mem (2000 + (0 * 256 + 3)))) ∧
    (CUDA_KERNEL.init (some 1000) 10 7 0 256 12 cudaOk.mem = cudaOk.mem ∧
      CUDA_KERNEL.init_copy (some 1000) 10 (some 2000) 0 256 12 cudaOk.mem = cudaOk.mem) ∧
    (launch 1 256 (CUDA_KERNEL.init (some 1000) 10 7) cudaOk.mem (1000 + 10)
        = cudaOk.mem (1000 + 10) ∧
      launch 1 256 (CUDA_KERNEL.init_copy (some 1000) 10 (some 2000)) cudaOk.mem (1000 + 10)
        = cudaOk.mem (1000 + 10)) :=
  ⟨((init_bound_check 10 0 3 (by decide) 1000 2000 7 cudaOk.mem).1 (by decide)).1 (by decide),
   ((init_bound_check 10 0 12 (by decide) 1000 2000 7 cudaOk.mem).1 (by decide)).2 (by decide)
     (some 1000) (some 2000),
   (init_bound_check 10 0 3 (by decide) 1000 2000 7 cudaOk.mem).2.2.2 1 10 (by decide)⟩

/-! ## Fill -/

/-- Integers up to `2^24` are binary32 values: the conversion to `float` is exact. -/
theorem floatOfNat_small (n : Nat) (h : n ≤ 16777216) : floatOfNat n = n := by
  rcases Nat.lt_or_ge n 16777216 with hlt | hge
  · have he : f32Shift 64 n = 0 := by simp [f32Shift, hlt]
    simp [floatOfNat, he, Nat.mod_one]
  · have : n = 16777216 := by omega
    subst this
    decide

/-- For sizes up to `2^24` the grid of `gpu_fill` has `⌈n / 256⌉` blocks and the kernel
receives the size itself. -/
theorem gpu_fill_launch_small (n : Nat) (h : n ≤ 16777216) :
    toUInt32 (number_of_blocks (toInt32 n)) = (n + 255) / 256 ∧
    toSizeT (toInt32 n) = n := by
  have hmod : n % 4294967296 = n := Nat.mod_eq_of_lt (by omega)
  have hint : toInt32 n = (n : Int) := by
    unfold toInt32
    rw [hmod, if_pos (by omega)]
  have hblocks : number_of_blocks (n : Int) = (((n + 255) / 256 : Nat) : Int) := by
    unfold number_of_blocks
    rw [if_pos (by omega), Int.toNat_ofNat, floatOfNat_small n h]
  rw [hint, hblocks]
  constructor
  · unfold toUInt32
    omega
  · unfold toSizeT
    omega

/-- Fill on buffers of at most `2^24` elements: `gpu_fill(v)` returns normally, leaves the
buffer object as it was, stores `v` in every element, and the copy out is `n` times `v`. -/
theorem gpu_fill_covers_small {T : Type} [Inhabited T] (s : State T) (v : T) (p : Nat)
    (hp : get_device_data s = some p) (hn : get_device_size s ≤ 16777216) :
    ∃ s1 : State T, gpu_fill s v = Outcome.ok s1 ∧ s1.self = s.self ∧
      (∀ i, i < get_device_size s → s1.cuda.mem (p + i) = v) ∧
      copy_to_vector_from_device s1
        = Outcome.ok (s1, List.replicate (get_device_size s) v) := by
  obtain ⟨hgrid, hsize⟩ := gpu_fill_launch_small (get_device_size s) hn
  have h256 : toUInt32 256 = 256 := by decide
  have hfill : gpu_fill s v = Outcome.ok { s with cuda := { s.cuda with
      mem := launch ((get_device_size s + 255) / 256) 256
        (CUDA_KERNEL.init (some p) (get_device_size s) v) s.cuda.mem } } := by
    simp only [gpu_fill, hgrid, hsize, h256, hp]
  have hall : ∀ i, i < get_device_size s →
      launch ((get_device_size s + 255) / 256) 256
        (CUDA_KERNEL.init (some p) (get_device_size s) v) s.cuda.mem (p + i) = v := by
    intro i hi
    apply launch_init_written _ _ _ _ _ _ (by omega) hi
    omega
  have hp1 : s.self.m_device.ptr = some p := hp
  refine ⟨_, hfill, rfl, hall, ?_⟩
  have hread : memRead (launch ((get_device_size s + 255) / 256) 256
      (CUDA_KERNEL.init (some p) (get_device_size s) v) s.cuda.mem) p (get_device_size s)
      = List.replicate (get_device_size s) v := by
    apply List.ext_getElem
    · simp [memRead]
    · intro i h1 _
      have hi : i < get_device_size s := by simpa [memRead] using h1
      simp [memRead, hall i hi]
  simp only [copy_to_vector_from_device, device_to_host, get_device_data, get_device_size,
    cudaMemcpyDeviceToHost, hp1, ite_self] at hread ⊢
  rw [hread, List.drop_replicate, Nat.sub_self, List.replicate_zero, List.append_nil]

/-- The scenario of the specification: allocate 10, fill with 7, copy out ten 7s. -/
theorem gpu_fill_ten_sevens :
    ∃ s1 : State Nat, gpu_fill (owned 10) 7 = Outcome.ok s1 ∧ s1.self = (owned 10).self ∧
      (∀ i, i < 10 → s1.cuda.mem (1000 + i) = 7) ∧
      copy_to_vector_from_device s1 = Outcome.ok (s1, [7, 7, 7, 7, 7, 7, 7, 7, 7, 7]) :=
  gpu_fill_covers_small (owned 10) 7 1000 rfl (by decide)

/-- C5, at the failing input. For a buffer of `n = 2^24 + 1 = 16777217` elements the size
converts to the `float` `16777216`, so `gpu_fill(7)` launches 65536 blocks, that is
16777216 workers: the last element is never written, and the copy out after the
synchronisation has `n` elements whose last one is still the old content `0`, not `7`. -/
theorem gpu_fill_misses_last_element :
    toUInt32 (number_of_blocks (toInt32 16777217)) = 65536 ∧
    ∃ (s : State Nat) (B : List Nat),
      gpu_fill (owned 16777217) 7 = Outcome.ok s ∧ gpu_sync s = Outcome.ok s ∧
      copy_to_vector_from_device s = Outcome.ok (s, B) ∧
      B.length = 16777217 ∧ B[16777216]? = some 0 := by
  have hgrid : toUInt32 (number_of_blocks (toInt32 16777217)) = 65536 := by decide
  have hsize : toSizeT (toInt32 16777217) = 16777217 := by decide
  have h256 : toUInt32 256 = 256 := by decide
  have hfill : gpu_fill (owned 16777217) 7 = Outcome.ok { owned 16777217 with
      cuda := { (owned 16777217).cuda with
        mem := launch 65536 256 (CUDA_KERNEL.init (some 1000) 16777217 7)
          (owned 16777217).cuda.mem } } := by
    have hp : get_device_data (owned 16777217) = some 1000 := rfl
    have hs : get_device_size (owned 16777217) = 16777217 := rfl
    simp only [gpu_fill, hs, hgrid, hsize, h256, hp]
  have hlast : launch 65536 256 (CUDA_KERNEL.init (some 1000) 16777217 7)
      (owned 16777217).cuda.mem (1000 + 16777216) = 0 := by
    rw [launch_preserves]
    · rfl
    · intro b hb t ht m
      have hidx := globalIdx_eq b t (by omega) ht
      have hne : 1000 + 16777216 ≠ 1000 + CUDA_KERNEL.globalIdx b 256 t := by omega
      by_cases h : CUDA_KERNEL.globalIdx b 256 t < 16777217
      · simp only [CUDA_KERNEL.init, h, if_true, Function.update_noteq hne]
      · simp only [CUDA_KERNEL.init, h, if_false]
  refine ⟨hgrid, _, memRead (launch 65536 256 (CUDA_KERNEL.init (some 1000) 16777217 7)
      (owned 16777217).cuda.mem) 1000 16777217, hfill, rfl, ?_, ?_, ?_⟩
  · have hp1 : (owned 16777217).self.m_device.ptr = some 1000 := rfl
    have hs1 : (owned 16777217).self.m_device_size = 16777217 := rfl
    simp only [copy_to_vector_from_device, device_to_host, get_device_data, get_device_size,
      cudaMemcpyDeviceToHost, hp1, hs1, ite_self]
    rw [List.drop_replicate, Nat.sub_self, List.replicate_zero, List.append_nil]
  · unfold memRead
    rw [List.length_map, List.length_range]
  · unfold memRead
    rw [List.getElem?_map, List.getElem?_range (by omega), Option.map_some', hlast]

end MAGPU
end MATools
